import Mathlib

/-!
Shallow embedding of the Recipe-API filter/query engine
(src/backend/controllers/recipeController.js) and proofs about it.

Modelling conventions:
* JavaScript numbers are modelled as `Option ℚ`: `some q` is the finite
  value `q`, `none` stands for a non-finite result (NaN; the claims never
  distinguish NaN from ±Infinity, so both collapse to `none`).  The data
  invariant of the spec (§3) guarantees stored numeric fields are finite
  or absent, so stored values use `Option ℚ` with `none` = absent.
* Rational arithmetic is phrased through `Rat.divInt` and integer
  arithmetic on numerators/denominators (kernel-reducible), instead of the
  sealed `ℚ` field operations; the results are the same rationals.
* `parseFloat`, `parseInt` and the implicit `Number(...)` coercion are
  modelled on decimal notation (sign, digits, decimal point); the
  exponent/hex forms are not exercised by any claim and are omitted.
* The MongoDB store is abstracted as a `Store` record of the four
  operations the controller issues; `honestStore db` interprets them over
  an in-memory list `db` the way MongoDB evaluates the concrete filters,
  pipeline and sort the controller builds.
-/

namespace RecipeAPI

/-! ### Kernel-friendly rational helpers -/

/-- The rational `n / d`, written through `Rat.divInt` so that concrete
values reduce by the kernel (the `ℚ` field operations are sealed). -/
def q (n d : Int) : ℚ := Rat.divInt n d

/-- `a ≤ b` on `ℚ` as a boolean, by cross-multiplication (denominators are
positive). -/
def qle (a b : ℚ) : Bool := decide (a.num * (b.den : Int) ≤ b.num * (a.den : Int))

/-- `a < b` on `ℚ` as a boolean, by cross-multiplication. -/
def qlt (a b : ℚ) : Bool := decide (a.num * (b.den : Int) < b.num * (a.den : Int))

/-- `a - b` on `ℚ` via `Rat.divInt`. -/
def qsub (a b : ℚ) : ℚ := Rat.divInt (a.num * b.den - b.num * a.den) (a.den * b.den)

/-- `a * b` on `ℚ` via `Rat.divInt`. -/
def qmul (a b : ℚ) : ℚ := Rat.divInt (a.num * b.num) ((a.den : Int) * b.den)

/-- `a / b` on `ℚ` via `Rat.divInt` (only used with `b ≠ 0`). -/
def qdiv (a b : ℚ) : ℚ := Rat.divInt (a.num * b.den) ((a.den : Int) * b.num)

/-- `Math.ceil` on a rational. -/
def qceil (q : ℚ) : Int := -(Int.fdiv (-q.num) q.den)

/-! ### JS numeric string parsing -/

/-- Numeric value of a decimal digit character. -/
def digitVal (c : Char) : Nat := c.toNat - 48

/-- Value of a list of decimal digit characters read left to right. -/
def decNat (cs : List Char) : Nat := cs.foldl (fun a c => 10 * a + digitVal c) 0

/-- The rational `sgn * ipart.fpart` denoted by a sign and the digit lists of
the integer and fractional parts. -/
def decFrac (sgn : Int) (ipart fpart : List Char) : ℚ :=
  Rat.divInt (sgn * ((decNat ipart : Int) * 10 ^ fpart.length + decNat fpart))
    (10 ^ fpart.length)

/-- JS `parseFloat` on a list of characters: skip leading whitespace, optional
sign, then the longest prefix `digits[.digits]`; `none` models `NaN`
(no digits found).  Exponent notation is not modelled (unused by the repo's
inputs). -/
def jsParseFloatL (cs0 : List Char) : Option ℚ :=
  let cs1 := cs0.dropWhile (fun c => c.isWhitespace)
  let sgn : Int := match cs1 with
    | '-' :: _ => -1
    | _ => 1
  let cs2 : List Char := match cs1 with
    | '-' :: t => t
    | '+' :: t => t
    | _ => cs1
  let ipart := cs2.takeWhile (fun c => c.isDigit)
  let rest := cs2.dropWhile (fun c => c.isDigit)
  let fpart : List Char := match rest with
    | '.' :: t => t.takeWhile (fun c => c.isDigit)
    | _ => []
  if ipart.isEmpty && fpart.isEmpty then none
  else some (decFrac sgn ipart fpart)

/-- JS `parseFloat` on a string. -/
def jsParseFloat (s : String) : Option ℚ := jsParseFloatL s.data

/-- JS `parseInt(_, 10)`-style parse: skip whitespace, optional sign, longest
digit prefix; `none` models `NaN`. -/
def jsParseInt (s : String) : Option Int :=
  let cs1 := s.data.dropWhile (fun c => c.isWhitespace)
  let sgn : Int := match cs1 with
    | '-' :: _ => -1
    | _ => 1
  let cs2 : List Char := match cs1 with
    | '-' :: t => t
    | '+' :: t => t
    | _ => cs1
  let ipart := cs2.takeWhile (fun c => c.isDigit)
  if ipart.isEmpty then none else some (sgn * (decNat ipart : Int))

/-- JS `Number(...)` coercion of a string (used implicitly by `-`, `*`, `/`):
whitespace-only is `0`; otherwise the whole trimmed string must be
`[sign]digits[.digits]`; anything else is NaN (`none`). -/
def jsToNumber (s : String) : Option ℚ :=
  let cs1 := s.data.dropWhile (fun c => c.isWhitespace)
  let cs := cs1.reverse.dropWhile (fun c => c.isWhitespace) |>.reverse
  if cs.isEmpty then some 0
  else
    let sgn : Int := match cs with
      | '-' :: _ => -1
      | _ => 1
    let cs2 : List Char := match cs with
      | '-' :: t => t
      | '+' :: t => t
      | _ => cs
    let ipart := cs2.takeWhile (fun c => c.isDigit)
    let rest := cs2.dropWhile (fun c => c.isDigit)
    match rest with
    | [] => if ipart.isEmpty then none else some (decFrac sgn ipart [])
    | '.' :: t =>
        let fpart := t.takeWhile (fun c => c.isDigit)
        let rest2 := t.dropWhile (fun c => c.isDigit)
        if rest2.isEmpty && !(ipart.isEmpty && fpart.isEmpty) then
          some (decFrac sgn ipart fpart)
        else none
    | _ => none

/-! ### Comparison Parser (`parseComparisonQuery`, controller lines 161-179) -/

/-- The parsed form of a comparison filter value.  `gte/lte/gt/lt` model the
Mongo operator objects returned for the four operator prefixes; `eqv` models
the *bare number* returned by the `==` branch and the no-operator branch.
The operand is `Option ℚ`, `none` standing for `NaN` (`parseFloat`
failure). -/
inductive CompQuery where
  | gte (x : Option ℚ)
  | lte (x : Option ℚ)
  | gt (x : Option ℚ)
  | lt (x : Option ℚ)
  | eqv (x : Option ℚ)
deriving DecidableEq, Repr

/-- JS truthiness of a `parseComparisonQuery` result: an operator object is
always truthy (even with a NaN operand); a bare number is truthy iff it is
neither `0` nor `NaN`. -/
def CompQuery.truthy : CompQuery → Bool
  | .eqv (some x) => decide (x ≠ 0)
  | .eqv none => false
  | _ => true

/-- `parseComparisonQuery` (controller lines 161-179).  The JS checks the
prefixes in the order `>=`, `<=`, `>`, `<`, `==`; the char-list patterns
below reproduce exactly that longest-first order.  Empty input is falsy in
JS, giving `null` (`none`). -/
def parseComparisonQuery (value : String) : Option CompQuery :=
  match value.data with
  | [] => none
  | '>' :: '=' :: rest => some (.gte (jsParseFloatL rest))
  | '<' :: '=' :: rest => some (.lte (jsParseFloatL rest))
  | '>' :: rest => some (.gt (jsParseFloatL rest))
  | '<' :: rest => some (.lt (jsParseFloatL rest))
  | '=' :: '=' :: rest => some (.eqv (jsParseFloatL rest))
  | _ => some (.eqv (jsParseFloatL value.data))

/-- Store-side evaluation of a comparison against a present finite stored
value.  A `NaN` operand matches no stored value (stored numbers are finite
by the §3 invariant, and in BSON ordering only NaN compares equal to /
below NaN). -/
def matchesComp : CompQuery → ℚ → Bool
  | .gte none, _ => false
  | .gte (some y), x => qle y x
  | .lte none, _ => false
  | .lte (some y), x => qle x y
  | .gt none, _ => false
  | .gt (some y), x => qlt y x
  | .lt none, _ => false
  | .lt (some y), x => qlt x y
  | .eqv none, _ => false
  | .eqv (some y), x => decide (x = y)

/-- Evaluation of a comparison against an optional stored value: an absent
field matches no numeric comparison or equality-with-number. -/
def matchesCompOpt (c : CompQuery) : Option ℚ → Bool
  | none => false
  | some x => matchesComp c x

/-! ### Regular expressions

The controller feeds the raw `title` / `cuisine` parameter to
`new RegExp(value, 'i')` and Mongo's `$regex` performs an *unanchored*
case-insensitive search with it.  We embed the fragment of JS regex syntax
the repository's inputs exercise: plain characters, `.`, postfix `*` and
groups `(...)`.  `buildRegex` returns `none` for a pattern that is invalid
in JS (dangling `*`, unmatched parentheses) and also for the metacharacters
outside the embedded fragment (`\`, `[`, `]`, `^`, `$`, `+`, `?`, `|`),
which no theorem below uses.  Case-insensitivity is modelled by
lower-casing pattern and subject. -/

/-- Regular expressions: empty language, empty string, single character,
any character (`.`), concatenation, alternation (internal, produced by
derivatives), Kleene star. -/
inductive RE where
  | emp
  | eps
  | ch (c : Char)
  | dot
  | seq (a b : RE)
  | alt (a b : RE)
  | star (a : RE)
deriving DecidableEq, Repr

/-- Does the regex accept the empty string? -/
def RE.nullable : RE → Bool
  | .emp => false
  | .eps => true
  | .ch _ => false
  | .dot => false
  | .seq a b => a.nullable && b.nullable
  | .alt a b => a.nullable || b.nullable
  | .star _ => true

/-- Brzozowski derivative of a regex by one character. -/
def RE.deriv : RE → Char → RE
  | .emp, _ => .emp
  | .eps, _ => .emp
  | .ch c, x => if x = c then .eps else .emp
  | .dot, _ => .eps
  | .seq a b, x =>
      if a.nullable then .alt (.seq (a.deriv x) b) (b.deriv x)
      else .seq (a.deriv x) b
  | .alt a b, x => .alt (a.deriv x) (b.deriv x)
  | .star a, x => .seq (a.deriv x) (.star a)

/-- Whole-string match via derivatives. -/
def reFullMatch (r : RE) : List Char → Bool
  | [] => r.nullable
  | c :: t => reFullMatch (r.deriv c) t

/-- All prefixes of a character list (shortest first). -/
def prefixesOf : List Char → List (List Char)
  | [] => [[]]
  | c :: t => [] :: (prefixesOf t).map (fun p => c :: p)

/-- All suffixes of a character list (longest first). -/
def suffixesOf : List Char → List (List Char)
  | [] => [[]]
  | c :: t => (c :: t) :: suffixesOf t

/-- Unanchored search (JS `RegExp.prototype.test` / Mongo `$regex`): some
substring of `s` matches `r` in full. -/
def reSearch (r : RE) (s : List Char) : Bool :=
  (suffixesOf s).any (fun suf => (prefixesOf suf).any (fun p => reFullMatch r p))

/-- Metacharacters outside the embedded regex fragment; a pattern using one
is conservatively rejected (no claim exercises them). -/
def unsupportedMeta (c : Char) : Bool :=
  c = '\\' || c = '[' || c = ']' || c = '^' || c = '$' || c = '+' || c = '?' || c = '|'

/-- Recursive-descent parser for the embedded regex fragment; `acc` is the
sequence parsed so far, the result is the parsed regex plus the unconsumed
input (which starts with `)` when a group ends).  `none` = invalid
pattern.  Fuel decreases on every call; every call consumes at least one
character, so `length + 1` fuel suffices. -/
def parseRE : Nat → List Char → RE → Option (RE × List Char)
  | 0, _, _ => none
  | _ + 1, [], acc => some (acc, [])
  | fuel + 1, c :: t, acc =>
    if c = ')' then some (acc, c :: t)
    else if c = '*' then none
    else if c = '(' then
      match parseRE fuel t .eps with
      | none => none
      | some (inner, rest) =>
        match rest with
        | ')' :: '*' :: t2 => parseRE fuel t2 (.seq acc (.star inner))
        | ')' :: t2 => parseRE fuel t2 (.seq acc inner)
        | _ => none
    else if unsupportedMeta c then none
    else
      let atom : RE := if c = '.' then .dot else .ch c
      match t with
      | '*' :: t2 => parseRE fuel t2 (.seq acc (.star atom))
      | _ => parseRE fuel t (.seq acc atom)

/-- `new RegExp(pattern, 'i')`: compile the lower-cased pattern; `none`
models the thrown `SyntaxError`. -/
def buildRegex (pat : String) : Option RE :=
  match parseRE (pat.length + 1) (pat.data.map Char.toLower) .eps with
  | some (r, []) => some r
  | _ => none

/-- Case-insensitive unanchored regex test against a stored string. -/
def regexTest (r : RE) (s : String) : Bool :=
  reSearch r (s.data.map Char.toLower)

/-- Case-insensitive substring containment, the notion the spec uses for
text filters ("substring-contains"). -/
def containsCI (needle hay : String) : Bool :=
  (suffixesOf (hay.data.map Char.toLower)).any
    (fun suf => (needle.data.map Char.toLower).isPrefixOf suf)

/-! ### Data model -/

/-- A Recipe record, restricted to the attributes the filter/query engine
reads.  `id` stands for the stable record identity (Mongo `_id`);
`nutrients_calories` is the `nutrients.calories` entry (a formatted display
string such as "450 kcal"), `none` when absent.  Stored numeric fields are
finite or absent (spec §3 invariant). -/
structure Recipe where
  id : Nat
  title : Option String := none
  cuisine : Option String := none
  rating : Option ℚ := none
  total_time : Option ℚ := none
  nutrients_calories : Option String := none
deriving DecidableEq, Repr

/-- The composite filter object the controller assembles (`query`, lines
42-68): compiled case-insensitive regexes for the text attributes and
comparison predicates for the numeric ones; `none` = field omitted. -/
structure MQuery where
  cuisine : Option RE := none
  title : Option RE := none
  total_time : Option CompQuery := none
  rating : Option CompQuery := none
deriving DecidableEq, Repr

/-- The `req.query` parameters `searchRecipes` destructures (line 40);
`none` = parameter absent from the query string. -/
structure Params where
  calories : Option String := none
  title : Option String := none
  cuisine : Option String := none
  total_time : Option String := none
  rating : Option String := none
  page : Option String := none
  limit : Option String := none
deriving DecidableEq, Repr

/-- A `$regex` condition against an optional stored text attribute: an
absent attribute matches no regex. -/
def matchText (re : Option RE) (v : Option String) : Bool :=
  match re with
  | none => true
  | some r => match v with
    | none => false
    | some s => regexTest r s

/-- A comparison condition against an optional stored numeric attribute. -/
def matchNum (cq : Option CompQuery) (v : Option ℚ) : Bool :=
  match cq with
  | none => true
  | some c => matchesCompOpt c v

/-- Store-side evaluation of the composite filter against one record. -/
def matchesQuery (qy : MQuery) (r : Recipe) : Bool :=
  matchText qy.cuisine r.cuisine && matchText qy.title r.title &&
    matchNum qy.total_time r.total_time && matchNum qy.rating r.rating

/-! ### Filter Predicate Builder (`searchRecipes` lines 42-68) -/

/-- `if (cuisine) query.cuisine = { $regex: new RegExp(cuisine, 'i') }`
(lines 45-47 / 50-52): absent or empty is falsy and adds nothing; an
invalid pattern makes `new RegExp` throw (the `Except.error` carries the
`SyntaxError` text). -/
def compileTextFilter (v : Option String) : Except String (Option RE) :=
  match v with
  | none => .ok none
  | some s =>
    if s.data.isEmpty then .ok none
    else match buildRegex s with
      | some re => .ok (some re)
      | none => .error ("Invalid regular expression: " ++ s)

/-- The numeric-field policy of lines 55-68 (and the calories condition of
lines 71-73): if the parameter is truthy, parse it; attach the result only
if that result is truthy — which drops a bare `0` or `NaN`. -/
def numFilter (v : Option String) : Option CompQuery :=
  match v with
  | none => none
  | some s =>
    if s.data.isEmpty then none
    else match parseComparisonQuery s with
      | some cq => if cq.truthy then some cq else none
      | none => none

/-- Assembly of the composite filter `query` (lines 42-68), in source
order: cuisine first, then title (either regex compilation can throw),
then the numeric fields. -/
def buildQuery (p : Params) : Except String MQuery :=
  match compileTextFilter p.cuisine with
  | .error e => .error e
  | .ok cz =>
    match compileTextFilter p.title with
    | .error e => .error e
    | .ok ti =>
      .ok { cuisine := cz, title := ti,
            total_time := numFilter p.total_time, rating := numFilter p.rating }

/-! ### Calories derivation (aggregation stages, lines 80-101) -/

/-- Non-overlapping left-to-right replacement of every occurrence of
`find` by `repl` (the semantics of `$replaceAll`); `fuel` bounds the scan
and is instantiated with the subject's length. -/
def replaceAllGo (find repl : List Char) : Nat → List Char → List Char
  | _, [] => []
  | 0, l => l
  | fuel + 1, c :: t =>
    if find.isPrefixOf (c :: t) && !find.isEmpty then
      repl ++ replaceAllGo find repl fuel (t.drop (find.length - 1))
    else c :: replaceAllGo find repl fuel t

/-- `$replaceAll` on character lists. -/
def replaceAllL (s find repl : List Char) : List Char :=
  replaceAllGo find repl s.length s

/-- `$trim` with its default behavior: strip whitespace from both ends. -/
def mongoTrim (cs : List Char) : List Char :=
  ((cs.dropWhile (fun c => c.isWhitespace)).reverse.dropWhile
    (fun c => c.isWhitespace)).reverse

/-- `$toDouble` on a string: the whole string must be a decimal number
(optional sign, digits, optional fraction); anything else raises an
aggregation error, which the model carries as `Except.error`. -/
def mongoToDouble (cs : List Char) : Except String ℚ :=
  let sgn : Int := match cs with
    | '-' :: _ => -1
    | _ => 1
  let cs2 : List Char := match cs with
    | '-' :: t => t
    | '+' :: t => t
    | _ => cs
  let ipart := cs2.takeWhile (fun c => c.isDigit)
  let rest := cs2.dropWhile (fun c => c.isDigit)
  match rest with
  | [] =>
    if ipart.isEmpty then .error ("Failed to parse number: " ++ String.mk cs)
    else .ok (decFrac sgn ipart [])
  | '.' :: t =>
    let fpart := t.takeWhile (fun c => c.isDigit)
    let rest2 := t.dropWhile (fun c => c.isDigit)
    if rest2.isEmpty && !(ipart.isEmpty && fpart.isEmpty) then
      .ok (decFrac sgn ipart fpart)
    else .error ("Failed to parse number: " ++ String.mk cs)
  | _ => .error ("Failed to parse number: " ++ String.mk cs)

/-- The per-record `caloriesValue` derivation (lines 81-95):
`$toDouble ($trim ($replaceAll ($ifNull nutrients.calories "0") " kcal" ""))`. -/
def deriveCalories (nc : Option String) : Except String ℚ :=
  mongoToDouble (mongoTrim (replaceAllL (nc.getD "0").data " kcal".data []))

/-- The second `$match` stage of the pipeline (lines 97-101): derive
`caloriesValue` for each surviving record and keep those satisfying the
calories comparison; a derivation failure aborts the whole aggregation. -/
def aggCaloriesFilter (cq : CompQuery) : List Recipe → Except String (List Recipe)
  | [] => .ok []
  | r :: t =>
    match deriveCalories r.nutrients_calories with
    | .error e => .error e
    | .ok v =>
      match aggCaloriesFilter cq t with
      | .error e => .error e
      | .ok rest => .ok (if matchesComp cq v then r :: rest else rest)

/-! ### Sorting and pagination (store behavior) -/

/-- Rating order used by `sort({ rating: -1 })`: descending on present
values, an absent rating below every present one (BSON null/missing sorts
first ascending, hence last descending). -/
def ratingGt (a b : Option ℚ) : Bool :=
  match a, b with
  | some x, some y => qlt y x
  | some _, none => true
  | none, _ => false

/-- Insert a record into a rating-descending list, after any record of
equal rating. -/
def insertByRating (r : Recipe) : List Recipe → List Recipe
  | [] => [r]
  | x :: t => if ratingGt r.rating x.rating then r :: x :: t else x :: insertByRating r t

/-- One admissible store behavior for `sort({ rating: -1 })`: a stable
insertion sort (MongoDB only promises the rating-descending property; the
relative order of equal ratings is unspecified — see the C8 theorems). -/
def sortByRatingDesc (l : List Recipe) : List Recipe :=
  l.foldl (fun acc r => insertByRating r acc) []

/-- `skip(s).limit(n)` on a result list.  A non-finite (`NaN`) or
non-integral or negative skip, or a non-finite limit, is rejected by the
store (the driver/server refuses such cursor options), surfacing as a
store error.  `limit(0)` means "no limit" in MongoDB; a negative limit
returns `|n|` documents. -/
def paginate (l : List Recipe) (skip : Option ℚ) (lim : Option Int) :
    Except String (List Recipe) :=
  match skip, lim with
  | some s, some n =>
    if s.den = 1 && decide (0 ≤ s.num) then
      let l2 := l.drop s.num.toNat
      .ok (if n = 0 then l2 else l2.take n.natAbs)
    else .error "invalid skip value"
  | _, _ => .error "skip and limit must be numeric values"

/-! ### The Record Store collaborator -/

/-- The four store operations the controller issues: `countDocuments`,
`find().sort().skip().limit()`, and the two aggregation round-trips of
Path B (pipeline + `$count`, pipeline + `$sort/$skip/$limit`).  Each may
fail with an error message. -/
structure Store where
  countDocs : MQuery → Except String Nat
  findPage : MQuery → Option ℚ → Option Int → Except String (List Recipe)
  aggCount : MQuery → CompQuery → Except String Nat
  aggPage : MQuery → CompQuery → Option ℚ → Option Int → Except String (List Recipe)

/-- The store over an in-memory record list, interpreting the concrete
filters, pipeline, sort and pagination the controller builds. -/
def honestStore (db : List Recipe) : Store where
  countDocs qy := .ok (db.filter (fun r => matchesQuery qy r)).length
  findPage qy skip lim :=
    paginate (sortByRatingDesc (db.filter (fun r => matchesQuery qy r))) skip lim
  aggCount qy cq :=
    match aggCaloriesFilter cq (db.filter (fun r => matchesQuery qy r)) with
    | .error e => .error e
    | .ok l => .ok l.length
  aggPage qy cq skip lim :=
    match aggCaloriesFilter cq (db.filter (fun r => matchesQuery qy r)) with
    | .error e => .error e
    | .ok l => paginate (sortByRatingDesc l) skip lim

/-- A store every operation of which fails with message `msg`. -/
def failStore (msg : String) : Store where
  countDocs _ := .error msg
  findPage _ _ _ := .error msg
  aggCount _ _ := .error msg
  aggPage _ _ _ _ := .error msg

/-- The honest store with only the *second* round-trip of Path B (the
paginated aggregate, lines 117-122) failing. -/
def secondHopFailStore (db : List Recipe) (msg : String) : Store :=
  { honestStore db with aggPage := fun _ _ _ _ => .error msg }

/-! ### Result envelope and the two endpoints -/

/-- The success envelope
`{success: true, count, total, page, totalPages, data}`; `page` and
`totalPages` are `Option Int` because `parseInt`/`Math.ceil` can produce
NaN on the search endpoint.  (No `limit` field exists in the response.) -/
structure Envelope where
  count : Nat
  total : Nat
  page : Option Int
  totalPages : Option Int
  data : List Recipe
deriving DecidableEq, Repr

/-- A controller response: `ok` is the 200 success envelope, `err` the
`res.status(status).json({success: false, message, error})` shape. -/
inductive Response where
  | ok (e : Envelope)
  | err (status : Nat) (message errorText : String)
deriving DecidableEq, Repr

/-- `parseInt(x) || d` (getRecipes lines 6-7): NaN and `0` are falsy and
fall back to the default. -/
def intOrDefault (v : Option Int) (d : Int) : Int :=
  match v with
  | none => d
  | some x => if x = 0 then d else x

/-- JS subtraction on possibly-NaN numbers. -/
def jsSubO (a b : Option ℚ) : Option ℚ :=
  match a, b with
  | some x, some y => some (qsub x y)
  | _, _ => none

/-- JS multiplication on possibly-NaN numbers. -/
def jsMulO (a b : Option ℚ) : Option ℚ :=
  match a, b with
  | some x, some y => some (qmul x y)
  | _, _ => none

/-- The destructured `page` (line 40) as a JS number: default `1` only when
the parameter is absent; a present string goes through `Number` coercion
when arithmetic hits it. -/
def searchPageNum (p : Params) : Option ℚ :=
  match p.page with
  | none => some 1
  | some s => jsToNumber s

/-- The destructured `limit` as a JS number (default `15` only when
absent). -/
def searchLimitNum (p : Params) : Option ℚ :=
  match p.limit with
  | none => some 15
  | some s => jsToNumber s

/-- `parseInt(page)` (lines 128/147): the absent default `1` stringifies
back to `1`. -/
def searchPageInt (p : Params) : Option Int :=
  match p.page with
  | none => some 1
  | some s => jsParseInt s

/-- `parseInt(limit)` (lines 121/140). -/
def searchLimitInt (p : Params) : Option Int :=
  match p.limit with
  | none => some 15
  | some s => jsParseInt s

/-- `(page - 1) * limit` (lines 120/139). -/
def searchSkip (p : Params) : Option ℚ :=
  jsMulO (jsSubO (searchPageNum p) (some 1)) (searchLimitNum p)

/-- `Math.ceil(total / limit)` (lines 129/148) with the raw `limit` value:
NaN limit gives NaN; a zero limit gives a non-finite value (also collapsed
to `none`, unused by any claim). -/
def jsCeilDiv (total : Nat) (l : Option ℚ) : Option Int :=
  match l with
  | none => none
  | some l => if l = 0 then none else some (qceil (qdiv (q total 1) l))

/-- `getRecipes` (lines 4-35): defaulted paging, unfiltered
rating-descending listing, count, envelope; any store failure becomes the
uniform 500 response. -/
def getRecipes (st : Store) (pageS limitS : Option String) : Response :=
  let page := intOrDefault (pageS.bind jsParseInt) 1
  let limit := intOrDefault (limitS.bind jsParseInt) 10
  let skip : Int := (page - 1) * limit
  match st.findPage {} (some (q skip 1)) (some limit) with
  | .error e => .err 500 "Server Error" e
  | .ok recipes =>
    match st.countDocs {} with
    | .error e => .err 500 "Server Error" e
    | .ok total =>
      .ok ⟨recipes.length, total, some page, jsCeilDiv total (some (q limit 1)), recipes⟩

/-- `searchRecipes` (lines 38-158): build the composite filter; when the
calories parameter is present and its parsed comparison truthy, run the
aggregation path (count round-trip, then paginated round-trip), otherwise
the direct path (count, then find); any thrown error becomes the uniform
500 response. -/
def searchRecipes (st : Store) (p : Params) : Response :=
  match buildQuery p with
  | .error e => .err 500 "Server Error" e
  | .ok query =>
    match numFilter p.calories with
    | some caloriesQuery =>
      match st.aggCount query caloriesQuery with
      | .error e => .err 500 "Server Error" e
      | .ok total =>
        match st.aggPage query caloriesQuery (searchSkip p) (searchLimitInt p) with
        | .error e => .err 500 "Server Error" e
        | .ok recipes =>
          .ok ⟨recipes.length, total, searchPageInt p,
               jsCeilDiv total (searchLimitNum p), recipes⟩
    | none =>
      match st.countDocs query with
      | .error e => .err 500 "Server Error" e
      | .ok total =>
        match st.findPage query (searchSkip p) (searchLimitInt p) with
        | .error e => .err 500 "Server Error" e
        | .ok recipes =>
          .ok ⟨recipes.length, total, searchPageInt p,
               jsCeilDiv total (searchLimitNum p), recipes⟩

/-! ### Specification-side notions used to state the claims -/

/-- `out` is an answer the Record Store may give for "all records matching
`qy`, sorted with the *only* sort specification the controller sends,
`{ rating: -1 }`": a permutation of the matching records that is
rating-descending.  MongoDB promises nothing more for equal keys, so every
such `out` is admissible. -/
def validSortResult (db : List Recipe) (qy : MQuery) (out : List Recipe) : Prop :=
  (db.filter (fun r => matchesQuery qy r)).Perm out ∧
    out.Chain' (fun a b => ratingGt b.rating a.rating = false)

/-- Store whose Path-B count round-trip succeeds but whose Path-B paginated
round-trip fails: exhibits the abort-on-second-hop behavior. -/
def firstHopOkStore (msg : String) : Store where
  countDocs _ := .ok 0
  findPage _ _ _ := .ok []
  aggCount _ _ := .ok 7
  aggPage _ _ _ _ := .error msg

/-! ### Concrete records and requests used by the claims -/

/-- Record A of the spec's combined-filter scenario. -/
def recA : Recipe :=
  { id := 1, title := some "A", rating := some (q 48 10), total_time := some 35,
    nutrients_calories := some "380 kcal" }

/-- Record B of the spec's combined-filter scenario. -/
def recB : Recipe :=
  { id := 2, title := some "B", rating := some (q 42 10), total_time := some 50,
    nutrients_calories := some "600 kcal" }

/-- Record C of the spec's combined-filter scenario, in its
"calories absent" variant. -/
def recC : Recipe :=
  { id := 3, title := some "C", rating := some (q 49 10), total_time := some 20,
    nutrients_calories := none }

/-- Record C in its variant with the literal string "none" stored as the
calories entry. -/
def recCNone : Recipe := { recC with nutrients_calories := some "none" }

/-- The combined-filter request
`rating=>=4.5&total_time=<=40&calories=<=400`. -/
def pCombined : Params :=
  { rating := some ">=4.5", total_time := some "<=40", calories := some "<=400" }

/-- Two records sharing the same rating (tie on the sort key). -/
def tieX : Recipe := { id := 1, title := some "X", rating := some (q 9 2) }

/-- Second record with the same rating as `tieX`. -/
def tieY : Recipe := { id := 2, title := some "Y", rating := some (q 9 2) }

/-- The empty composite filter matches every record. -/
theorem matchesQuery_empty (r : Recipe) : matchesQuery {} r = true := rfl

/-- Filtering a record list with the empty composite filter keeps it
unchanged. -/
theorem filter_matchesQuery_empty (db : List Recipe) :
    db.filter (fun r => matchesQuery {} r) = db := by
  induction db with
  | nil => rfl
  | cons r t ih => simp [List.filter, matchesQuery_empty, ih]

/-- C1: the Comparison Parser maps ">=4.5" to a greater-or-equal predicate
with operand 4.5, "<=60" to a less-or-equal predicate with operand 60,
"==5" to the bare value 5, "30" to the bare value 30, and "" to null; the
operator prefixes are checked longest-first, so a string starting with
">=" always produces a greater-or-equal (never a greater-than) predicate,
and a string starting with "<=" always a less-or-equal one. -/
theorem C1_comparison_parsing :
    parseComparisonQuery ">=4.5" = some (.gte (some (q 9 2))) ∧
    parseComparisonQuery "<=60" = some (.lte (some 60)) ∧
    parseComparisonQuery "==5" = some (.eqv (some 5)) ∧
    parseComparisonQuery "30" = some (.eqv (some 30)) ∧
    parseComparisonQuery "" = none ∧
    (∀ rest : List Char, ∃ o, parseComparisonQuery ⟨'>' :: '=' :: rest⟩ = some (.gte o)) ∧
    (∀ rest : List Char, ∃ o, parseComparisonQuery ⟨'<' :: '=' :: rest⟩ = some (.lte o)) :=
  ⟨by decide, by decide, by decide, by decide, rfl,
   fun _ => ⟨_, rfl⟩, fun _ => ⟨_, rfl⟩⟩

/-- C4: the per-record calories derivation maps the nutrients entry
"450 kcal" to the numeric value 450 and an absent entry to 0. -/
theorem C4_calories_derivation :
    deriveCalories (some "450 kcal") = .ok 450 ∧ deriveCalories none = .ok 0 :=
  ⟨rfl, rfl⟩

/-- C5 counterexample: on the store {A, B, C} (C with absent calories) the
combined request `rating=>=4.5&total_time=<=40&calories=<=400` returns
data [C, A] with total 2 — not data {A} with total 1 as the claim states:
C (rating 4.9, total_time 20) passes both comparison filters, and its
absent calories entry derives to 0, which satisfies `<=400`. -/
theorem C5_counterexample :
    searchRecipes (honestStore [recA, recB, recC]) pCombined =
      .ok ⟨2, 2, some 1, some 1, [recC, recA]⟩ ∧
    ([recC, recA] ≠ [recA] ∧ (2 : Nat) ≠ 1) := by
  constructor
  · decide
  · exact ⟨by decide, by decide⟩

/-- C5 (amended): on the scenario store, with C's calories entry absent,
the combined request returns exactly the records C and A (rating
descending, C first) with total 2; in C's other documented variant, the
literal string "none", the calories derivation fails and the whole request
(and not only record C) ends in the uniform 500 error. -/
theorem C5_combined_filter :
    searchRecipes (honestStore [recA, recB, recC]) pCombined =
      .ok ⟨2, 2, some 1, some 1, [recC, recA]⟩ ∧
    searchRecipes (honestStore [recA, recB, recCNone]) pCombined =
      .err 500 "Server Error" "Failed to parse number: none" := by
  constructor
  · decide
  · decide

/-- A nullable regex is found in every subject (its empty-string match is a
prefix of the first suffix). -/
theorem reSearch_of_nullable (r : RE) (hn : r.nullable = true) (l : List Char) :
    reSearch r l = true := by
  unfold reSearch
  rw [List.any_eq_true]
  refine ⟨l, ?_, ?_⟩
  · cases l with
    | nil => exact List.mem_singleton.mpr rfl
    | cons c t => exact List.mem_cons_self _ _
  · rw [List.any_eq_true]
    refine ⟨[], ?_, ?_⟩
    · cases l with
      | nil => exact List.mem_singleton.mpr rfl
      | cons c t => exact List.mem_cons_self _ _
    · simpa [reFullMatch] using hn

/-- C10: the raw title/cuisine value is compiled as a case-insensitive
regular expression, not a literal: "a.c" matches the title "abc" (which
does not contain "a.c"), ".*" matches every present title, and the invalid
pattern "(" makes the request fail through the uniform 500 error path. -/
theorem C10_regex_semantics :
    (∃ qy, buildQuery { title := some "a.c" } = .ok qy ∧
        matchesQuery qy { id := 0, title := some "abc" } = true ∧
        containsCI "a.c" "abc" = false) ∧
    (∀ s : String, matchText (buildRegex ".*") (some s) = true) ∧
    searchRecipes (honestStore []) { cuisine := some "(" } =
      .err 500 "Server Error" "Invalid regular expression: (" := by
  refine ⟨⟨_, rfl, by decide, by decide⟩, ?_, by decide⟩
  intro s
  show reSearch (.seq .eps (.star .dot)) (s.data.map Char.toLower) = true
  exact reSearch_of_nullable (.seq .eps (.star .dot)) rfl _

/-- C8: the code's only sort key is rating descending — no secondary
deterministic key exists — so on two records with equal rating both
orders are admissible store answers for the very sort specification the
controller sends, and a limit-1 page is not determined: the first pages
of the two admissible orders differ. -/
theorem C8_sort_underdetermined :
    validSortResult [tieX, tieY] {} [tieX, tieY] ∧
    validSortResult [tieX, tieY] {} [tieY, tieX] ∧
    [tieX, tieY] ≠ [tieY, tieX] ∧
    [tieX, tieY].take 1 ≠ [tieY, tieX].take 1 := by
  refine ⟨⟨?_, ?_⟩, ⟨?_, ?_⟩, by decide, by decide⟩
  · rw [filter_matchesQuery_empty]
  · exact List.chain'_pair.mpr (by decide)
  · rw [filter_matchesQuery_empty]
    exact List.Perm.swap tieY tieX []
  · exact List.chain'_pair.mpr (by decide)

/-- C9 counterexample: with a fully healthy store (no store failure) the
request title="(" still surfaces an error — the invalid regex thrown by
`new RegExp` is caught by the same catch-all and returned as a 500 — so
store failure is not the *only* error class surfaced to the caller. -/
theorem C9_counterexample :
    searchRecipes (honestStore [recA]) { title := some "(" } =
      .err 500 "Server Error" "Invalid regular expression: (" := by decide

/-- C9 (amended): every response of either endpoint is a success envelope
or exactly the 500 shape carrying "Server Error" plus the underlying error
text (no 400 exists); with every store operation failing with message
`msg`, the response is that 500 with text `msg`; a failure in the second
round-trip of Path B alone aborts the whole request the same way (no
partial data); but besides store failures, the regex-compilation error of
an invalid title/cuisine value is also surfaced through this path. -/
theorem C9_error_policy :
    (∀ (st : Store) (p : Params),
        (∃ e, searchRecipes st p = .ok e) ∨
        (∃ m, searchRecipes st p = .err 500 "Server Error" m)) ∧
    (∀ (st : Store) (ps ls : Option String),
        (∃ e, getRecipes st ps ls = .ok e) ∨
        (∃ m, getRecipes st ps ls = .err 500 "Server Error" m)) ∧
    (∀ (p : Params) (qy : MQuery) (msg : String), buildQuery p = .ok qy →
        searchRecipes (failStore msg) p = .err 500 "Server Error" msg) ∧
    (∀ (p : Params) (qy : MQuery) (cq : CompQuery) (msg : String),
        buildQuery p = .ok qy → numFilter p.calories = some cq →
        searchRecipes (firstHopOkStore msg) p = .err 500 "Server Error" msg) ∧
    (∀ (msg : String) (ps ls : Option String),
        getRecipes (failStore msg) ps ls = .err 500 "Server Error" msg) := by
  refine ⟨?_, ?_, ?_, ?_, ?_⟩
  · intro st p
    unfold searchRecipes
    split
    · exact Or.inr ⟨_, rfl⟩
    · split
      · split
        · exact Or.inr ⟨_, rfl⟩
        · split
          · exact Or.inr ⟨_, rfl⟩
          · exact Or.inl ⟨_, rfl⟩
      · split
        · exact Or.inr ⟨_, rfl⟩
        · split
          · exact Or.inr ⟨_, rfl⟩
          · exact Or.inl ⟨_, rfl⟩
  · intro st ps ls
    unfold getRecipes
    show (∃ e, (match st.findPage {}
        (some (q ((intOrDefault (ps.bind jsParseInt) 1 - 1) *
          intOrDefault (ls.bind jsParseInt) 10) 1))
        (some (intOrDefault (ls.bind jsParseInt) 10)) with
      | Except.error e => Response.err 500 "Server Error" e
      | Except.ok recipes =>
        match st.countDocs {} with
        | Except.error e => Response.err 500 "Server Error" e
        | Except.ok total =>
          Response.ok ⟨recipes.length, total, some (intOrDefault (ps.bind jsParseInt) 1),
            jsCeilDiv total (some (q (intOrDefault (ls.bind jsParseInt) 10) 1)),
            recipes⟩) = Response.ok e) ∨
      (∃ m, (match st.findPage {}
        (some (q ((intOrDefault (ps.bind jsParseInt) 1 - 1) *
          intOrDefault (ls.bind jsParseInt) 10) 1))
        (some (intOrDefault (ls.bind jsParseInt) 10)) with
      | Except.error e => Response.err 500 "Server Error" e
      | Except.ok recipes =>
        match st.countDocs {} with
        | Except.error e => Response.err 500 "Server Error" e
        | Except.ok total =>
          Response.ok ⟨recipes.length, total, some (intOrDefault (ps.bind jsParseInt) 1),
            jsCeilDiv total (some (q (intOrDefault (ls.bind jsParseInt) 10) 1)),
            recipes⟩) = Response.err 500 "Server Error" m)
    split
    · exact Or.inr ⟨_, rfl⟩
    · split
      · exact Or.inr ⟨_, rfl⟩
      · exact Or.inl ⟨_, rfl⟩
  · intro p qy msg h
    unfold searchRecipes
    rw [h]
    cases hn : numFilter p.calories with
    | some cq => rfl
    | none => rfl
  · intro p qy cq msg h hcq
    unfold searchRecipes
    rw [h, hcq]
    rfl
  · intro msg ps ls
    unfold getRecipes
    rfl

/-- C9 witness: a request with a valid (empty) composite filter against
the all-failing store, and against the store failing only on the second
Path-B round-trip. -/
theorem C9_error_policy_witness :
    searchRecipes (failStore "boom") {} = .err 500 "Server Error" "boom" ∧
    searchRecipes (firstHopOkStore "late") { calories := some "<=400" } =
      .err 500 "Server Error" "late" := by
  constructor
  · exact (C9_error_policy.2.2.1 {} {} "boom" rfl)
  · exact (C9_error_policy.2.2.2.1 { calories := some "<=400" } {}
      (.lte (some 400)) "late" rfl rfl)

end RecipeAPI
